import Mathlib

/-!
Verification of the brave-orders order-management backend.

The definitions in this file are a shallow embedding of the Django
application in `src/brave_orders/`: the six models of `models.py`, the
serializer-level write paths of `serializers.py` (in particular
`OrderSerializer.create` and `OrderSerializer.update`), the protected
deletes declared via `on_delete=PROTECT`, the `unique=True` constraint on
`Customer.ruc`, and the pagination settings of `pagination.py`.

The relational store is a record of lists of rows; surrogate ids are drawn
from a single counter `next_id`.  Dates are embedded as integers (day
numbers) and the 2-decimal fixed-point `unit_price` as an integer number
of cents.  The automatic `created_at` / `updated_at` timestamps of
`Customer` are not modelled: no property below depends on them.
-/

set_option autoImplicit false

namespace BraveOrders

/-- A row of `models.Customer` (fields of models.py lines 41-83,
timestamps omitted). -/
structure Customer where
  id : Nat
  name : String
  ruc : String
  email : String
  phone : String
  address : String
  contact_name : String
  deriving Repr, DecidableEq, Inhabited

/-- A row of `models.Seller` (models.py lines 122-147). -/
structure Seller where
  id : Nat
  name : String
  address : String
  email : String
  company_name : String
  ruc : String
  deriving Repr, DecidableEq, Inhabited

/-- A row of `models.AdvertisementKind` (models.py lines 381-385). -/
structure AdvertisementKind where
  id : Nat
  display_name : String
  deriving Repr, DecidableEq, Inhabited

/-- A row of `models.AdvertisementElement` (models.py lines 412-416). -/
structure AdvertisementElement where
  id : Nat
  display : String
  deriving Repr, DecidableEq, Inhabited

/-- A row of `models.Order` (models.py lines 200-243).  `customer` and
`seller` hold the ids of the referenced rows. -/
structure Order where
  id : Nat
  customer : Nat
  seller : Nat
  ruc : String
  email : String
  address : String
  phone : String
  contact_name : String
  payment_days : Nat
  deriving Repr, DecidableEq, Inhabited

/-- A row of `models.Advertisement` (models.py lines 306-354).  `order`,
`advertisement_element` and `advertisement_kind` hold referenced ids;
dates are day numbers and `unit_price` is in cents. -/
structure Advertisement where
  id : Nat
  order : Nat
  brand : String
  code : String
  start_date : Int
  end_date : Int
  quantity : Nat
  unit_price : Int
  advertisement_element : Nat
  advertisement_kind : Nat
  deriving Repr, DecidableEq, Inhabited

/-- The relational store backing the six models, with the single surrogate
id counter `next_id` (every freshly created row receives `next_id`). -/
structure Store where
  customers : List Customer
  sellers : List Seller
  orders : List Order
  advertisements : List Advertisement
  advertisement_kinds : List AdvertisementKind
  advertisement_elements : List AdvertisementElement
  next_id : Nat
  deriving Repr, DecidableEq, Inhabited

/-- The wire payload of one nested advertisement inside an Order write
(the dictionaries of `initial_data["advertisements"]` consumed by
`AdvertisementSerializer` in serializers.py lines 140-180).  `order` is
declared `required=False` (lines 171-174), hence an `Option`.  `quantity`
and `unit_price` carry the raw (not yet range-checked) values. -/
structure AdDraft where
  order : Option Nat
  brand : String
  code : String
  start_date : Int
  end_date : Int
  quantity : Int
  unit_price : Int
  advertisement_element : Nat
  advertisement_kind : Nat
  deriving Repr, DecidableEq, Inhabited

/-- Upper bound accepted by Django's `PositiveIntegerField` (values are
validated into `0 ≤ v ≤ 2^31 - 1`). -/
def positiveIntMax : Int := 2147483647

def hasOrderId (s : Store) (oid : Nat) : Bool :=
  s.orders.any fun o => o.id == oid

def hasKindId (s : Store) (kid : Nat) : Bool :=
  s.advertisement_kinds.any fun k => k.id == kid

def hasElementId (s : Store) (eid : Nat) : Bool :=
  s.advertisement_elements.any fun e => e.id == eid

/-- Field-local validation of an advertisement draft: `quantity` is a
`PositiveIntegerField` (models.py lines 331-334) and `unit_price` a
`DecimalField` with `max_digits=10`, `decimal_places=2` (lines 335-340),
i.e. at most 10 significant digits in cents. -/
def adScalarsValid (d : AdDraft) : Bool :=
  0 ≤ d.quantity && d.quantity ≤ positiveIntMax &&
  d.unit_price.natAbs < 10 ^ 10

/-- Relational validation of an advertisement draft: the
`PrimaryKeyRelatedField`s of `AdvertisementSerializer` check that the
referenced `advertisement_element`, `advertisement_kind` and (only when
supplied, since `required=False`) `order` exist. -/
def adRelationsValid (s : Store) (d : AdDraft) : Bool :=
  hasElementId s d.advertisement_element &&
  hasKindId s d.advertisement_kind &&
  (match d.order with
   | none => true
   | some oid => hasOrderId s oid)

/-- `AdvertisementSerializer(data=advertisement_data).is_valid()`. -/
def adIsValid (s : Store) (d : AdDraft) : Bool :=
  adScalarsValid d && adRelationsValid s d

/-- The advertisement row created by
`advertisement_serializer.save(order=order)`: the `order` keyword passed
to `save` overrides any `order` value of the draft, and the new row takes
the store's next surrogate id. -/
def draftToAd (newId oid : Nat) (d : AdDraft) : Advertisement :=
  { id := newId
    order := oid
    brand := d.brand
    code := d.code
    start_date := d.start_date
    end_date := d.end_date
    quantity := d.quantity.toNat
    unit_price := d.unit_price
    advertisement_element := d.advertisement_element
    advertisement_kind := d.advertisement_kind }

/-- `advertisement_serializer.save(order=<row with id oid>)`. -/
def adSave (s : Store) (d : AdDraft) (oid : Nat) : Store :=
  { s with
    advertisements := s.advertisements ++ [draftToAd s.next_id oid d]
    next_id := s.next_id + 1 }

/-- The wire value found under the `advertisements` key of an Order write
payload: the key may be absent, hold JSON `null`, or hold a list of
drafts. -/
inductive AdsField where
  | absent
  | null
  | list (drafts : List AdDraft)
  deriving Repr, DecidableEq

/-- `self.initial_data.get("advertisements")` (serializers.py line 308):
Python's `dict.get` returns `None` both when the key is absent and when
it is present with JSON `null`. -/
def AdsField.get : AdsField → Option (List AdDraft)
  | .absent => none
  | .null => none
  | .list ds => some ds

/-- `self.initial_data.get("advertisements", [])` (serializers.py line
266): the `[]` default applies only when the key is absent; a key present
with `null` still yields `None`, over which the subsequent
`enumerate(...)` raises a `TypeError`. -/
def AdsField.getWithDefault : AdsField → Option (List AdDraft)
  | .absent => some []
  | .null => none
  | .list ds => some ds

/-- The per-draft loop shared verbatim by `OrderSerializer.create`
(serializers.py lines 272-282) and `OrderSerializer.update` (lines
321-333): each draft is validated against the current store; a valid
draft is saved immediately with `order=<the parent order>`, an invalid
one is skipped and its index recorded in the error list.  Returns the
store after all saves together with the indices of the failing drafts
(the source stores them as `{"advertisement_<idx>": errors}` entries). -/
def adsLoop (s : Store) (oid : Nat) (drafts : List AdDraft) (idx : Nat) :
    Store × List Nat :=
  match drafts with
  | [] => (s, [])
  | d :: rest =>
    if adIsValid s d then
      adsLoop (adSave s d oid) oid rest (idx + 1)
    else
      let r := adsLoop s oid rest (idx + 1)
      (r.1, idx :: r.2)

/-- The scalar Order fields of a validated create payload
(`validated_data` of `OrderSerializer.create`; the read-only
`advertisements` method field never appears there). -/
structure OrderFields where
  customer : Nat
  seller : Nat
  ruc : String
  email : String
  address : String
  phone : String
  contact_name : String
  payment_days : Nat
  deriving Repr, DecidableEq, Inhabited

/-- The Order row built from a validated create payload, carrying the
store's next surrogate id. -/
def orderRowOf (s : Store) (f : OrderFields) : Order :=
  { id := s.next_id
    customer := f.customer
    seller := f.seller
    ruc := f.ruc
    email := f.email
    address := f.address
    phone := f.phone
    contact_name := f.contact_name
    payment_days := f.payment_days }

/-- `models.Order.objects.create(**validated_data)` (serializers.py lines
268-270). -/
def addOrder (s : Store) (f : OrderFields) : Store :=
  { s with
    orders := s.orders ++ [orderRowOf s f]
    next_id := s.next_id + 1 }

/-- Outcome of an Order aggregate write.  `ok` and `aggError` both carry
the store as left by the call: the source raises its aggregate
`ValidationError` *after* the order row and every valid advertisement
have been persisted, with no rollback.  `crash` models the `TypeError`
raised by `enumerate(None)` when a create payload carries
`advertisements: null`. -/
inductive WriteResult where
  | ok (s : Store) (orderId : Nat)
  | aggError (s : Store) (orderId : Nat) (errorIndices : List Nat)
  | crash (s : Store)
  deriving Repr, DecidableEq

/-- The store as left behind by an Order aggregate write. -/
def WriteResult.store : WriteResult → Store
  | .ok s _ => s
  | .aggError s _ _ => s
  | .crash s => s

/-- `OrderSerializer.create` (serializers.py lines 251-287): read the raw
`advertisements` list (default `[]`), create the Order row, run the
per-draft loop, and fail with the aggregate error iff any draft failed
validation — leaving the order row and the successfully created
advertisements in place either way. -/
def orderCreate (s : Store) (validated : OrderFields) (ads : AdsField) :
    WriteResult :=
  let advertisements_data := ads.getWithDefault
  let oid := s.next_id
  let s₁ := addOrder s validated
  match advertisements_data with
  | none => .crash s₁
  | some drafts =>
    let r := adsLoop s₁ oid drafts 0
    if r.2.isEmpty then .ok r.1 oid else .aggError r.1 oid r.2

/-- `validated_data` of `OrderSerializer.update`: on PATCH only the
supplied scalar fields are present, on PUT all of them are. -/
structure OrderPatch where
  customer : Option Nat
  seller : Option Nat
  ruc : Option String
  email : Option String
  address : Option String
  phone : Option String
  contact_name : Option String
  payment_days : Option Nat
  deriving Repr, DecidableEq, Inhabited

/-- An `OrderPatch` supplying no field at all. -/
def OrderPatch.empty : OrderPatch :=
  { customer := none, seller := none, ruc := none, email := none
    address := none, phone := none, contact_name := none
    payment_days := none }

/-- The `setattr` loop of `OrderSerializer.update` (serializers.py lines
311-313) on one row: every supplied field overwrites the stored value,
every unsupplied field keeps it. -/
def applyPatch (o : Order) (p : OrderPatch) : Order :=
  { o with
    customer := p.customer.getD o.customer
    seller := p.seller.getD o.seller
    ruc := p.ruc.getD o.ruc
    email := p.email.getD o.email
    address := p.address.getD o.address
    phone := p.phone.getD o.phone
    contact_name := p.contact_name.getD o.contact_name
    payment_days := p.payment_days.getD o.payment_days }

/-- `setattr` loop plus `instance.save()` applied to the store: only the
row with id `oid` changes. -/
def savePatched (s : Store) (oid : Nat) (p : OrderPatch) : Store :=
  { s with
    orders := s.orders.map fun o => if o.id == oid then applyPatch o p else o }

/-- `instance.advertisements.all().delete()` (serializers.py line 318). -/
def deleteAdsOf (s : Store) (oid : Nat) : Store :=
  { s with
    advertisements := s.advertisements.filter fun a => a.order != oid }

/-- `OrderSerializer.update` (serializers.py lines 289-338), shared by
PUT (full replace: all scalar fields supplied) and PATCH (partial update:
only some).  Scalar fields are applied and saved first; then, exactly
when `initial_data.get("advertisements")` is not `None`, every existing
advertisement of the order is deleted and the supplied list is created by
the same per-draft loop as in create, raising the aggregate error iff any
draft failed. -/
def orderUpdate (s : Store) (oid : Nat) (validated : OrderPatch)
    (ads : AdsField) : WriteResult :=
  let advertisements_data := ads.get
  let s₁ := savePatched s oid validated
  match advertisements_data with
  | none => .ok s₁ oid
  | some drafts =>
    let s₂ := deleteAdsOf s₁ oid
    let r := adsLoop s₂ oid drafts 0
    if r.2.isEmpty then .ok r.1 oid else .aggError r.1 oid r.2

/-- `OrderSerializer.get_advertisements` (serializers.py lines 235-249):
`obj.advertisements.all()`, the advertisements whose `order` foreign key
is this order.  The serialized `advertisements` array of every Order
response is exactly this list. -/
def get_advertisements (s : Store) (oid : Nat) : List Advertisement :=
  s.advertisements.filter fun a => a.order == oid

/-! ### Protected deletes

Every foreign key of `models.py` is declared `on_delete=PROTECT`
(`Order.customer`, `Order.seller`, `Advertisement.order`,
`Advertisement.advertisement_element`, `Advertisement.advertisement_kind`).
Django refuses to delete a row while protected foreign keys point at it,
raising a `ProtectedError` that names the blocking related objects and
leaving the database untouched.  Each delete below returns the next store
together with `some <related_name>` on refusal (in which case the
returned store is the input store, unchanged) or `none` on success. -/

/-- Delete a Customer row; blocked by `Order.customer` (PROTECT,
related_name `orders`, models.py lines 200-206). -/
def deleteCustomer (s : Store) (cid : Nat) : Store × Option String :=
  if s.orders.any fun o => o.customer == cid then
    (s, some "orders")
  else
    ({ s with customers := s.customers.filter fun c => c.id != cid }, none)

/-- Delete a Seller row; blocked by `Order.seller` (PROTECT,
related_name `orders`, models.py lines 207-213). -/
def deleteSeller (s : Store) (sid : Nat) : Store × Option String :=
  if s.orders.any fun o => o.seller == sid then
    (s, some "orders")
  else
    ({ s with sellers := s.sellers.filter fun x => x.id != sid }, none)

/-- Delete an Order row; blocked by `Advertisement.order` (PROTECT,
related_name `advertisements`, models.py lines 306-312). -/
def deleteOrder (s : Store) (oid : Nat) : Store × Option String :=
  if s.advertisements.any fun a => a.order == oid then
    (s, some "advertisements")
  else
    ({ s with orders := s.orders.filter fun o => o.id != oid }, none)

/-- Delete an AdvertisementKind row; blocked by
`Advertisement.advertisement_kind` (PROTECT, related_name
`advertisements`, models.py lines 348-354). -/
def deleteAdvertisementKind (s : Store) (kid : Nat) : Store × Option String :=
  if s.advertisements.any fun a => a.advertisement_kind == kid then
    (s, some "advertisements")
  else
    ({ s with
        advertisement_kinds :=
          s.advertisement_kinds.filter fun k => k.id != kid }, none)

/-- Delete an AdvertisementElement row; blocked by
`Advertisement.advertisement_element` (PROTECT, related_name
`advertisements`, models.py lines 341-347). -/
def deleteAdvertisementElement (s : Store) (eid : Nat) :
    Store × Option String :=
  if s.advertisements.any fun a => a.advertisement_element == eid then
    (s, some "advertisements")
  else
    ({ s with
        advertisement_elements :=
          s.advertisement_elements.filter fun e => e.id != eid }, none)

/-! ### Simple entity creates -/

/-- The wire payload of a Customer create. -/
structure CustomerFields where
  name : String
  ruc : String
  email : String
  phone : String
  address : String
  contact_name : String
  deriving Repr, DecidableEq, Inhabited

/-- Customer create through `CustomerSerializer`: `Customer.ruc` is
declared `unique=True` (models.py lines 46-54), so the `ModelSerializer`
checks the tax id against the existing rows and rejects a duplicate (the
store is returned unchanged together with `none` in that case). -/
def createCustomer (s : Store) (f : CustomerFields) :
    Store × Option Nat :=
  if s.customers.any fun c => c.ruc == f.ruc then
    (s, none)
  else
    ({ s with
        customers := s.customers ++ [{
          id := s.next_id
          name := f.name
          ruc := f.ruc
          email := f.email
          phone := f.phone
          address := f.address
          contact_name := f.contact_name }]
        next_id := s.next_id + 1 }, some s.next_id)

/-- The wire payload of a Seller create. -/
structure SellerFields where
  name : String
  address : String
  email : String
  company_name : String
  ruc : String
  deriving Repr, DecidableEq, Inhabited

/-- Seller create through `SellerSerializer`: `Seller.ruc` carries no
`unique=True` (models.py lines 140-147), so the create always succeeds. -/
def createSeller (s : Store) (f : SellerFields) : Store × Nat :=
  ({ s with
      sellers := s.sellers ++ [{
        id := s.next_id
        name := f.name
        address := f.address
        email := f.email
        company_name := f.company_name
        ruc := f.ruc }]
      next_id := s.next_id + 1 }, s.next_id)

/-- Validation of the scalar Order create payload performed by
`OrderSerializer.is_valid` before `create` runs: the `customer` and
`seller` `PrimaryKeyRelatedField`s must name existing rows and
`payment_days` is a `PositiveIntegerField`.  No tax-id uniqueness check is
generated: `Order.ruc` carries no `unique=True` (models.py lines
214-221). -/
def orderFieldsValid (s : Store) (f : OrderFields) : Bool :=
  (s.customers.any fun c => c.id == f.customer) &&
  (s.sellers.any fun x => x.id == f.seller) &&
  (f.payment_days : Int) ≤ positiveIntMax

/-- Stand-alone advertisement create through `AdvertisementViewSet`: the
draft is validated by `AdvertisementSerializer` and saved with its own
`order` value (the serializer declares `order` with `required=False`, and
a missing `order` makes the database insert fail on the NOT NULL
`order_id` column — returned as `none`). -/
def createAdvertisement (s : Store) (d : AdDraft) :
    Option (Store × Nat) :=
  if adIsValid s d then
    match d.order with
    | some oid => some (adSave s d oid, s.next_id)
    | none => none
  else
    none

/-! ### Pagination

Modelled from the spec: the page slicing, the `page_size` query-parameter
handling and the response envelope live in Django REST Framework's
`PageNumberPagination`, which is not part of this repository;
`src/brave_orders/pagination.py` (lines 45-47) only sets
`page_size = 50`, `page_size_query_param = "page_size"` and
`max_page_size = 100`.  The definitions below embed the documented
framework behaviour with those three settings: a missing or non-positive
`page_size` parameter falls back to the default, a positive one is capped
at `max_page_size`; the envelope carries the total count, the emptiness
of the next/previous links and the page's result slice. -/

def page_size : Nat := 50

def max_page_size : Nat := 100

/-- The effective page size for a request: `none` stands for an absent
(or unparseable) `page_size` query parameter. -/
def effectivePageSize (requested : Option Int) : Nat :=
  match requested with
  | none => page_size
  | some n => if n ≤ 0 then page_size else min n.toNat max_page_size

/-- The paginated list-response envelope. -/
structure PageEnvelope (α : Type) where
  count : Nat
  hasNext : Bool
  hasPrevious : Bool
  results : List α
  deriving Repr, DecidableEq

/-- Paginate `items` for 1-based page `page` and a requested page size. -/
def paginate {α : Type} (items : List α) (page : Nat)
    (requested : Option Int) : PageEnvelope α :=
  let size := effectivePageSize requested
  { count := items.length
    hasNext := decide (page * size < items.length)
    hasPrevious := decide (1 < page)
    results := (items.drop ((page - 1) * size)).take size }

/-! ### Characterization of the per-draft loop -/

/-- The advertisement rows produced by saving the drafts `ds` in order for
parent order `oid`, with surrogate ids starting at `startId`. -/
def savedFrom (startId oid : Nat) : List AdDraft → List Advertisement
  | [] => []
  | d :: rest => draftToAd startId oid d :: savedFrom (startId + 1) oid rest

theorem savedFrom_length (startId oid : Nat) (ds : List AdDraft) :
    (savedFrom startId oid ds).length = ds.length := by
  induction ds generalizing startId with
  | nil => rfl
  | cons d rest ih => simp [savedFrom, ih]

theorem savedFrom_order (startId oid : Nat) (ds : List AdDraft) :
    ∀ a ∈ savedFrom startId oid ds, a.order = oid := by
  induction ds generalizing startId with
  | nil => simp [savedFrom]
  | cons d rest ih =>
    intro a ha
    rw [savedFrom, List.mem_cons] at ha
    rcases ha with rfl | ha
    · rfl
    · exact ih (startId + 1) a ha

theorem savedFrom_id_ge (startId oid : Nat) (ds : List AdDraft) :
    ∀ a ∈ savedFrom startId oid ds, startId ≤ a.id := by
  induction ds generalizing startId with
  | nil => simp [savedFrom]
  | cons d rest ih =>
    intro a ha
    rw [savedFrom, List.mem_cons] at ha
    rcases ha with rfl | ha
    · exact Nat.le_refl _
    · exact Nat.le_of_succ_le (ih (startId + 1) a ha)

/-- Saving an advertisement touches only `advertisements` and `next_id`,
none of which draft validation reads. -/
theorem adIsValid_adSave (s : Store) (d : AdDraft) (oid : Nat)
    (e : AdDraft) : adIsValid (adSave s d oid) e = adIsValid s e := by
  simp [adIsValid, adRelationsValid, hasOrderId, hasKindId, hasElementId,
    adSave]

/-- `applyPatch` never changes the surrogate id of a row. -/
theorem applyPatch_id (o : Order) (p : OrderPatch) :
    (applyPatch o p).id = o.id := rfl

/-- `any` of an id test is unchanged by the in-place patching of one row,
since `applyPatch` preserves ids. -/
theorem any_id_map_patch (l : List Order) (oid x : Nat) (p : OrderPatch) :
    ((l.map fun o => if o.id == oid then applyPatch o p else o).any
      fun o => o.id == x) = l.any fun o => o.id == x := by
  induction l with
  | nil => rfl
  | cons o rest ih =>
    simp only [List.map_cons, List.any_cons, ih]
    by_cases h : o.id == oid <;> simp [h, applyPatch]

/-- The scalar part of an Order update rewrites one row in place without
changing any id, so relational draft validation is unaffected. -/
theorem adIsValid_savePatched (s : Store) (oid : Nat) (p : OrderPatch)
    (e : AdDraft) : adIsValid (savePatched s oid p) e = adIsValid s e := by
  have horders : ∀ x : Nat,
      hasOrderId (savePatched s oid p) x = hasOrderId s x := by
    intro x
    simp only [hasOrderId, savePatched]
    exact any_id_map_patch s.orders oid x p
  have hkind : ∀ x : Nat,
      hasKindId (savePatched s oid p) x = hasKindId s x := by
    intro x; simp [hasKindId, savePatched]
  have helem : ∀ x : Nat,
      hasElementId (savePatched s oid p) x = hasElementId s x := by
    intro x; simp [hasElementId, savePatched]
  simp only [adIsValid, adRelationsValid, horders, hkind, helem]

/-- Deleting advertisements touches only `advertisements`, which draft
validation does not read. -/
theorem adIsValid_deleteAdsOf (s : Store) (oid : Nat) (e : AdDraft) :
    adIsValid (deleteAdsOf s oid) e = adIsValid s e := by
  simp [adIsValid, adRelationsValid, hasOrderId, hasKindId, hasElementId,
    deleteAdsOf]

/-- Full characterization of the shared per-draft loop: the store gains
exactly one saved row per draft that validates (in payload order, with
consecutive fresh ids), and the collected error indices are exactly the
positions of the drafts that do not validate. -/
theorem adsLoop_spec (oid : Nat) (drafts : List AdDraft) :
    ∀ (s : Store) (idx : Nat),
      adsLoop s oid drafts idx =
        ({ s with
            advertisements :=
              s.advertisements ++
                savedFrom s.next_id oid
                  (drafts.filter fun d => adIsValid s d)
            next_id :=
              s.next_id + (drafts.filter fun d => adIsValid s d).length },
         ((drafts.enumFrom idx).filter fun q => !adIsValid s q.2).map
           Prod.fst) := by
  induction drafts with
  | nil => intro s idx; simp [adsLoop, savedFrom]
  | cons d rest ih =>
    intro s idx
    have hiv : ∀ e : AdDraft, adIsValid (adSave s d oid) e = adIsValid s e :=
      adIsValid_adSave s d oid
    by_cases h : adIsValid s d
    · have hl : adsLoop s oid (d :: rest) idx
          = adsLoop (adSave s d oid) oid rest (idx + 1) := by
        simp [adsLoop, h]
      rw [hl, ih]
      have hf : (rest.filter fun e => adIsValid (adSave s d oid) e)
          = rest.filter fun e => adIsValid s e :=
        List.filter_congr fun a _ => hiv a
      have hfe : ((rest.enumFrom (idx + 1)).filter
            fun q => !adIsValid (adSave s d oid) q.2)
          = (rest.enumFrom (idx + 1)).filter fun q => !adIsValid s q.2 :=
        List.filter_congr fun a _ => by rw [hiv]
      rw [hf, hfe]
      simp [adSave, h, savedFrom, List.filter_cons, List.enumFrom,
        List.append_assoc, Nat.add_assoc, Nat.add_comm 1]
    · have hl : adsLoop s oid (d :: rest) idx
          = ((adsLoop s oid rest (idx + 1)).1,
             idx :: (adsLoop s oid rest (idx + 1)).2) := by
        simp [adsLoop, h]
      rw [hl, ih]
      simp [h, List.filter_cons, List.enumFrom_cons]

/-! ### Characterization of the aggregate write paths -/

/-- The drafts of a payload that pass `AdvertisementSerializer` validation
against store `s`. -/
def validDrafts (s : Store) (drafts : List AdDraft) : List AdDraft :=
  drafts.filter fun d => adIsValid s d

/-- The 0-based positions of the drafts of a payload that fail
`AdvertisementSerializer` validation against store `s`: the keys of the
aggregate error raised by `OrderSerializer.create` / `update`. -/
def failedIndices (s : Store) (drafts : List AdDraft) : List Nat :=
  ((drafts.enumFrom 0).filter fun q => !adIsValid s q.2).map Prod.fst

theorem failedIndices_isEmpty_iff (s : Store) (drafts : List AdDraft) :
    (failedIndices s drafts).isEmpty = true ↔
      ∀ d ∈ drafts, adIsValid s d = true := by
  simp only [failedIndices, List.isEmpty_iff, List.map_eq_nil_iff,
    List.filter_eq_nil_iff]
  rw [List.forall_mem_enumFrom]
  constructor
  · intro h d hd
    rcases List.getElem_of_mem hd with ⟨i, hi, rfl⟩
    simpa using h i hi
  · intro h i hi
    simpa using h _ (List.getElem_mem hi)

/-- The store left behind by `OrderSerializer.create` with a list
payload: the new order row, plus one advertisement row per valid draft. -/
def createdStore (s : Store) (f : OrderFields) (drafts : List AdDraft) :
    Store :=
  { addOrder s f with
    advertisements :=
      s.advertisements ++
        savedFrom (s.next_id + 1) s.next_id (validDrafts (addOrder s f) drafts)
    next_id :=
      s.next_id + 1 + (validDrafts (addOrder s f) drafts).length }

/-- `OrderSerializer.create` on a list payload, in closed form: the order
id is the fresh `s.next_id`; the call returns `ok` when every draft
validates and the aggregate error with the failing indices otherwise, and
in both cases the store is `createdStore`. -/
theorem orderCreate_eq (s : Store) (f : OrderFields)
    (drafts : List AdDraft) :
    orderCreate s f (.list drafts) =
      if (failedIndices (addOrder s f) drafts).isEmpty
      then .ok (createdStore s f drafts) s.next_id
      else .aggError (createdStore s f drafts) s.next_id
        (failedIndices (addOrder s f) drafts) := by
  unfold orderCreate
  simp only [AdsField.getWithDefault, adsLoop_spec, createdStore,
    failedIndices, validDrafts, addOrder]

/-- `OrderSerializer.update` when `initial_data.get("advertisements")`
is `None` (key absent, or present with JSON null): scalar fields only. -/
theorem orderUpdate_none (s : Store) (oid : Nat) (p : OrderPatch)
    (ads : AdsField) (h : ads.get = none) :
    orderUpdate s oid p ads = .ok (savePatched s oid p) oid := by
  unfold orderUpdate
  rw [h]

/-- The store left behind by `OrderSerializer.update` with a list
payload: the scalar patch applied, the order's old advertisements
deleted, one new advertisement row per valid draft. -/
def replacedStore (s : Store) (oid : Nat) (p : OrderPatch)
    (drafts : List AdDraft) : Store :=
  { deleteAdsOf (savePatched s oid p) oid with
    advertisements :=
      (deleteAdsOf (savePatched s oid p) oid).advertisements ++
        savedFrom s.next_id oid (validDrafts s drafts)
    next_id := s.next_id + (validDrafts s drafts).length }

/-- `OrderSerializer.update` on a list payload, in closed form.  Draft
validity is measured against the original store `s`: neither the scalar
patch (which preserves ids) nor the deletion of the old advertisements
changes the outcome of draft validation. -/
theorem orderUpdate_list (s : Store) (oid : Nat) (p : OrderPatch)
    (drafts : List AdDraft) :
    orderUpdate s oid p (.list drafts) =
      if (failedIndices s drafts).isEmpty
      then .ok (replacedStore s oid p drafts) oid
      else .aggError (replacedStore s oid p drafts) oid
        (failedIndices s drafts) := by
  have hiv : ∀ e : AdDraft,
      adIsValid (deleteAdsOf (savePatched s oid p) oid) e = adIsValid s e :=
    fun e => by rw [adIsValid_deleteAdsOf, adIsValid_savePatched]
  have hf : (drafts.filter fun d =>
        adIsValid (deleteAdsOf (savePatched s oid p) oid) d)
      = drafts.filter fun d => adIsValid s d :=
    List.filter_congr fun a _ => hiv a
  have hfe : ((drafts.enumFrom 0).filter fun q =>
        !adIsValid (deleteAdsOf (savePatched s oid p) oid) q.2)
      = (drafts.enumFrom 0).filter fun q => !adIsValid s q.2 :=
    List.filter_congr fun a _ => by rw [hiv]
  unfold orderUpdate
  simp only [AdsField.get, adsLoop_spec, replacedStore, failedIndices,
    validDrafts, deleteAdsOf, savePatched]
  simp only [deleteAdsOf, savePatched] at hf hfe
  simp only [hf, hfe]

theorem filter_savedFrom_self (startId oid : Nat) (ds : List AdDraft) :
    (savedFrom startId oid ds).filter (fun a => a.order == oid)
      = savedFrom startId oid ds :=
  List.filter_eq_self.mpr fun a ha => by
    simp [savedFrom_order startId oid ds a ha]

/-- The `advertisements` array of the create response: when no existing
advertisement already points at the fresh order id, the derived
collection of the new order is exactly the rows saved from the valid
drafts. -/
theorem get_advertisements_createdStore (s : Store) (f : OrderFields)
    (drafts : List AdDraft)
    (hfresh : ∀ a ∈ s.advertisements, a.order ≠ s.next_id) :
    get_advertisements (createdStore s f drafts) s.next_id =
      savedFrom (s.next_id + 1) s.next_id
        (validDrafts (addOrder s f) drafts) := by
  have hnil : s.advertisements.filter (fun a => a.order == s.next_id)
      = [] :=
    List.filter_eq_nil_iff.mpr fun a ha => by simp [hfresh a ha]
  unfold get_advertisements createdStore
  simp only [List.filter_append, hnil, List.nil_append,
    filter_savedFrom_self]

/-- The derived collection of an order after a replace: the old rows are
gone (they were deleted first) and only the rows saved from the valid
drafts remain. -/
theorem get_advertisements_replacedStore (s : Store) (oid : Nat)
    (p : OrderPatch) (drafts : List AdDraft) :
    get_advertisements (replacedStore s oid p drafts) oid =
      savedFrom s.next_id oid (validDrafts s drafts) := by
  have hnil : (s.advertisements.filter fun a => a.order != oid).filter
      (fun a => a.order == oid) = [] :=
    List.filter_eq_nil_iff.mpr fun a ha => by
      have := (List.mem_filter.mp ha).2
      simp only [bne_iff_ne, ne_eq, decide_not] at this
      simp [List.mem_filter] at ha
      simp [ha.2]
  unfold get_advertisements replacedStore deleteAdsOf savePatched
  simp only [List.filter_append, hnil, List.nil_append,
    filter_savedFrom_self]

/-- `failedIndices` holds exactly the positions of the invalid drafts. -/
theorem mem_failedIndices (s : Store) (drafts : List AdDraft) (i : Nat)
    (hi : i < drafts.length) :
    i ∈ failedIndices s drafts ↔
      adIsValid s (drafts.get ⟨i, hi⟩) = false := by
  unfold failedIndices
  rw [List.mem_map]
  constructor
  · rintro ⟨q, hq, rfl⟩
    rcases List.mem_filter.mp hq with ⟨hmem, hval⟩
    have : drafts[q.1 - 0]? = some q.2 :=
      (List.mk_mem_enumFrom_iff_le_and_getElem?_sub.mp
        (show (q.1, q.2) ∈ List.enumFrom 0 drafts from hmem)).2
    simp only [Nat.sub_zero] at this
    have hget : drafts.get ⟨q.1, hi⟩ = q.2 := by
      have := (List.getElem?_eq_some_iff.mp this).choose_spec
      simpa [List.get_eq_getElem] using this
    rw [hget]
    simpa using hval
  · intro hval
    refine ⟨(i, drafts.get ⟨i, hi⟩), List.mem_filter.mpr ⟨?_, ?_⟩, rfl⟩
    · rw [List.mk_mem_enumFrom_iff_le_and_getElem?_sub]
      refine ⟨Nat.zero_le _, ?_⟩
      simp only [Nat.sub_zero, List.getElem?_eq_some_iff]
      exact ⟨hi, rfl⟩
    · simpa [List.get_eq_getElem] using hval

/-! ### Concrete fixtures used by the witnesses -/

def demoCustomer : Customer :=
  ⟨1, "Acme", "123", "a@acme", "555", "Main St", "John"⟩

def demoSeller : Seller := ⟨2, "Jane", "Ave", "j@s", "Tech", "456"⟩

def demoKind : AdvertisementKind := ⟨4, "Banner"⟩

def demoElement : AdvertisementElement := ⟨3, "Main"⟩

def demoOrder : Order := ⟨10, 1, 2, "123", "o@a", "Main St", "555", "John", 30⟩

def demoAd : Advertisement :=
  ⟨11, 10, "TechBrand", "AD-1", 0, 364, 100, 5000, 3, 4⟩

/-- A store holding one row of each entity: the order (id 10) is owned by
the customer (id 1) and seller (id 2), and owns one advertisement
(id 11) referencing the kind (id 4) and element (id 3). -/
def demoStore : Store :=
  ⟨[demoCustomer], [demoSeller], [demoOrder], [demoAd], [demoKind],
   [demoElement], 12⟩

/-- A valid advertisement draft with no `order` value. -/
def demoDraft : AdDraft := ⟨none, "NewBrand", "AD-2", 0, 100, 50, 7500, 3, 4⟩

/-- An invalid advertisement draft: negative quantity. -/
def badDraft : AdDraft := ⟨none, "Bad", "AD-3", 0, 100, -1, 7500, 3, 4⟩

/-- A valid advertisement draft naming order 10 explicitly. -/
def demoDraftWithOrder : AdDraft := ⟨some 10, "B", "AD-4", 0, 9, 2, 100, 3, 4⟩

def demoOrderFields : OrderFields :=
  ⟨1, 2, "123", "o@a", "Main St", "555", "John", 30⟩

/-- The `{payment_days: 45}` PATCH payload of the spec's example. -/
def demoPatch : OrderPatch :=
  ⟨none, none, none, none, none, none, none, some 45⟩

def demoCustomerFields : CustomerFields := ⟨"Other", "123", "x@y", "1", "Z", "K"⟩

def demoSellerFields : SellerFields := ⟨"S2", "B", "s@x", "C", "456"⟩

/-! ### The claims -/

/-- Claim C1, counterexample: a partial update of order 10 whose payload
contains `advertisements: []` does NOT leave the order's advertisement
set unchanged — the update path reads `initial_data` (the raw payload)
for the `advertisements` key without distinguishing PATCH from PUT, so
the order's one existing advertisement is deleted. -/
theorem c1_counterexample :
    get_advertisements
        (orderUpdate demoStore 10 demoPatch (.list [])).store 10 = [] ∧
    get_advertisements demoStore 10 = [demoAd] := by decide

/-- Claim C1 (amended): a partial update applies only the supplied scalar
Order fields, and the advertisement set is unchanged whenever the
payload's `advertisements` key is absent or holds null; a payload that
supplies an `advertisements` list instead triggers the same
delete-and-recreate replacement as a full replace. -/
theorem c1_theorem (s : Store) (oid : Nat) (p : OrderPatch)
    (ads : AdsField) (h : ads.get = none) :
    orderUpdate s oid p ads = .ok (savePatched s oid p) oid ∧
    (orderUpdate s oid p ads).store.advertisements = s.advertisements ∧
    ∀ o ∈ s.orders, o.id ≠ oid →
      o ∈ (orderUpdate s oid p ads).store.orders := by
  have he := orderUpdate_none s oid p ads h
  refine ⟨he, ?_, ?_⟩
  · rw [he]; rfl
  · intro o ho hne
    rw [he]
    show o ∈ (savePatched s oid p).orders
    unfold savePatched
    refine List.mem_map.mpr ⟨o, ho, ?_⟩
    rw [if_neg]
    simp [hne]

/-- Claim C1 witness: the amended statement at the spec's
`{payment_days: 45}` PATCH with a null `advertisements` key. -/
theorem c1_witness :
    AdsField.get .null = none ∧
    orderUpdate demoStore 10 demoPatch .null =
      .ok (savePatched demoStore 10 demoPatch) 10 :=
  ⟨rfl, (c1_theorem demoStore 10 demoPatch .null rfl).1⟩

/-- Claim C2: on aggregate create with at least one invalid draft, the
call fails with the aggregate error keyed by the indices of exactly the
failing drafts (all of them: the loop continues past a failure), while
the order row and one saved advertisement per valid draft remain
persisted — no rollback. -/
theorem c2_theorem (s : Store) (f : OrderFields) (drafts : List AdDraft)
    (hbad : ∃ d ∈ drafts, adIsValid (addOrder s f) d = false) :
    orderCreate s f (.list drafts) =
      .aggError (createdStore s f drafts) s.next_id
        (failedIndices (addOrder s f) drafts) ∧
    failedIndices (addOrder s f) drafts ≠ [] ∧
    (∀ (i : Nat) (hi : i < drafts.length),
        i ∈ failedIndices (addOrder s f) drafts ↔
          adIsValid (addOrder s f) (drafts.get ⟨i, hi⟩) = false) ∧
    orderRowOf s f ∈ (createdStore s f drafts).orders ∧
    (createdStore s f drafts).advertisements =
      s.advertisements ++
        savedFrom (s.next_id + 1) s.next_id
          (validDrafts (addOrder s f) drafts) := by
  have hne : (failedIndices (addOrder s f) drafts).isEmpty = false := by
    rcases hbad with ⟨d, hd, hv⟩
    cases h : (failedIndices (addOrder s f) drafts).isEmpty with
    | false => rfl
    | true =>
      have := (failedIndices_isEmpty_iff _ _).mp h d hd
      rw [hv] at this
      cases this
  refine ⟨?_, ?_, fun i hi => mem_failedIndices _ _ i hi, ?_, rfl⟩
  · rw [orderCreate_eq, hne]
    rfl
  · intro hnil
    rw [hnil] at hne
    cases hne
  · show orderRowOf s f ∈ (addOrder s f).orders
    unfold addOrder
    exact List.mem_append_right _ (List.mem_singleton_self _)

/-- Claim C2 witness: creating an order with one invalid draft (negative
quantity) fails with the aggregate error but persists the order row. -/
theorem c2_witness :
    (∃ d ∈ [badDraft],
        adIsValid (addOrder demoStore demoOrderFields) d = false) ∧
    orderCreate demoStore demoOrderFields (.list [badDraft]) =
      .aggError (createdStore demoStore demoOrderFields [badDraft]) 12
        (failedIndices (addOrder demoStore demoOrderFields) [badDraft]) :=
  ⟨⟨badDraft, by decide, by decide⟩,
   (c2_theorem demoStore demoOrderFields [badDraft]
     ⟨badDraft, by decide, by decide⟩).1⟩

/-- Claim C3: on full replace, a supplied `advertisements` list (even
empty) first deletes every advertisement the order owned (any row with
an id older than the fresh counter is gone) and then creates the new
list exactly as aggregate create does (same loop: one saved row per
valid draft, aggregate error keyed by the failing indices); an omitted
`advertisements` key leaves the advertisement table untouched. -/
theorem c3_theorem (s : Store) (oid : Nat) (p : OrderPatch)
    (drafts : List AdDraft) :
    (orderUpdate s oid p (.list drafts) =
      if (failedIndices s drafts).isEmpty
      then .ok (replacedStore s oid p drafts) oid
      else .aggError (replacedStore s oid p drafts) oid
        (failedIndices s drafts)) ∧
    get_advertisements (orderUpdate s oid p (.list drafts)).store oid =
      savedFrom s.next_id oid (validDrafts s drafts) ∧
    (∀ a ∈ s.advertisements, a.order = oid → a.id < s.next_id →
        a ∉ (orderUpdate s oid p (.list drafts)).store.advertisements) ∧
    (orderUpdate s oid p .absent).store.advertisements =
      s.advertisements := by
  have hst : (orderUpdate s oid p (.list drafts)).store
      = replacedStore s oid p drafts := by
    rw [orderUpdate_list]
    split <;> rfl
  refine ⟨orderUpdate_list s oid p drafts, ?_, ?_, ?_⟩
  · rw [hst]
    exact get_advertisements_replacedStore s oid p drafts
  · intro a ha hord hid hmem
    rw [hst] at hmem
    rcases List.mem_append.mp hmem with hold | hnew
    · have := (List.mem_filter.mp hold).2
      simp [hord] at this
    · exact absurd (savedFrom_id_ge _ _ _ a hnew) (by omega)
  · rw [orderUpdate_none s oid p .absent rfl]
    rfl

/-- Claim C3 witness: replacing order 10's single advertisement with one
new valid draft ends with exactly the saved row from that draft. -/
theorem c3_witness :
    get_advertisements
        (orderUpdate demoStore 10 demoPatch (.list [demoDraft])).store 10 =
      savedFrom 12 10 (validDrafts demoStore [demoDraft]) :=
  (c3_theorem demoStore 10 demoPatch [demoDraft]).2.1

/-- Claim C4: deleting a Customer, Seller, Order, AdvertisementKind or
AdvertisementElement that is referenced through a protected foreign key
by at least one Order or Advertisement fails with the referential
integrity error naming the blocking relation, and returns the store
unchanged — target row and referencing rows intact, no partial
deletion. -/
theorem c4_theorem (s : Store) (cid sid oid kid eid : Nat)
    (hc : s.orders.any (fun o => o.customer == cid) = true)
    (hs : s.orders.any (fun o => o.seller == sid) = true)
    (ho : s.advertisements.any (fun a => a.order == oid) = true)
    (hk : s.advertisements.any
      (fun a => a.advertisement_kind == kid) = true)
    (he : s.advertisements.any
      (fun a => a.advertisement_element == eid) = true) :
    deleteCustomer s cid = (s, some "orders") ∧
    deleteSeller s sid = (s, some "orders") ∧
    deleteOrder s oid = (s, some "advertisements") ∧
    deleteAdvertisementKind s kid = (s, some "advertisements") ∧
    deleteAdvertisementElement s eid = (s, some "advertisements") := by
  unfold deleteCustomer deleteSeller deleteOrder deleteAdvertisementKind
    deleteAdvertisementElement
  simp [hc, hs, ho, hk, he]

/-- Claim C4 witness: in the demo store every row is referenced (the
order by its advertisement, the customer/seller by the order, the
kind/element by the advertisement), and each delete is refused. -/
theorem c4_witness :
    (demoStore.orders.any (fun o => o.customer == 1) = true) ∧
    (demoStore.advertisements.any (fun a => a.order == 10) = true) ∧
    deleteCustomer demoStore 1 = (demoStore, some "orders") ∧
    deleteOrder demoStore 10 = (demoStore, some "advertisements") := by
  refine ⟨by decide, by decide, ?_, ?_⟩
  · exact (c4_theorem demoStore 1 2 10 4 3 (by decide) (by decide)
      (by decide) (by decide) (by decide)).1
  · exact (c4_theorem demoStore 1 2 10 4 3 (by decide) (by decide)
      (by decide) (by decide) (by decide)).2.2.1

/-- Claim C5: tax-id uniqueness is enforced for Customer and only for
Customer.  A second Customer with an already-stored `ruc` is rejected
with the store unchanged; two Sellers with equal `ruc` both get created;
two Orders with equal `ruc` (and valid payloads) both get created; and
two identical Advertisements both get created (the Advertisement model
carries no tax-id field, so there is nothing to be unique). -/
theorem c5_theorem (s : Store) (cf : CustomerFields) (sf : SellerFields)
    (f : OrderFields) (d : AdDraft)
    (hdup : s.customers.any (fun c => c.ruc == cf.ruc) = true)
    (hof : orderFieldsValid s f = true)
    (hd : adIsValid s d = true)
    (hdo : d.order.isSome = true) :
    createCustomer s cf = (s, none) ∧
    (createSeller (createSeller s sf).1 sf).1.sellers.countP
        (fun x => x.ruc == sf.ruc) =
      s.sellers.countP (fun x => x.ruc == sf.ruc) + 2 ∧
    (orderCreate s f .absent = .ok (addOrder s f) s.next_id ∧
      orderFieldsValid (addOrder s f) f = true ∧
      orderCreate (addOrder s f) f .absent =
        .ok (addOrder (addOrder s f) f) (s.next_id + 1) ∧
      (addOrder (addOrder s f) f).orders.countP
          (fun o => o.ruc == f.ruc) =
        s.orders.countP (fun o => o.ruc == f.ruc) + 2) ∧
    ∃ r₁, createAdvertisement s d = some r₁ ∧
      ∃ r₂, createAdvertisement r₁.1 d = some r₂ := by
  rcases Option.isSome_iff_exists.mp hdo with ⟨o, hord⟩
  have hone : ∀ t : Store, (createSeller t sf).1.sellers.countP
      (fun x => x.ruc == sf.ruc) =
        t.sellers.countP (fun x => x.ruc == sf.ruc) + 1 := by
    intro t
    unfold createSeller
    simp [List.countP_append, List.countP_cons]
  refine ⟨?_, ?_, ⟨rfl, ?_, rfl, ?_⟩, ?_⟩
  · unfold createCustomer
    simp [hdup]
  · rw [hone, hone]
  · simpa [orderFieldsValid, addOrder] using hof
  · simp [addOrder, orderRowOf, List.countP_append, List.countP_cons]
  · refine ⟨(adSave s d o, s.next_id), ?_, (adSave (adSave s d o) d o,
      (adSave s d o).next_id), ?_⟩
    · unfold createAdvertisement
      rw [hord]
      simp [hd]
    · unfold createAdvertisement
      rw [hord]
      simp [adIsValid_adSave, hd]

/-- Claim C5 witness: the demo store already holds a customer with ruc
"123"; a second customer with the same ruc is rejected, sellers and
orders with duplicated rucs are not. -/
theorem c5_witness :
    (demoStore.customers.any
      (fun c => c.ruc == demoCustomerFields.ruc) = true) ∧
    (orderFieldsValid demoStore demoOrderFields = true) ∧
    (adIsValid demoStore demoDraftWithOrder = true) ∧
    (demoDraftWithOrder.order.isSome = true) ∧
    createCustomer demoStore demoCustomerFields = (demoStore, none) := by
  refine ⟨by decide, by decide, by decide, by decide, ?_⟩
  exact (c5_theorem demoStore demoCustomerFields demoSellerFields
    demoOrderFields demoDraftWithOrder (by decide) (by decide) (by decide)
    (by decide)).1

/-- Claim C6: creating an Order with N valid nested drafts (N ∈
{0,1,2}) succeeds; the derived `advertisements` array of the response
has length N, every row in it is owned by the new order, and the stored
advertisement table grew by exactly N rows. -/
theorem c6_theorem (s : Store) (f : OrderFields) (drafts : List AdDraft)
    (hvalid : ∀ d ∈ drafts, adIsValid (addOrder s f) d = true)
    (hN : drafts.length = 0 ∨ drafts.length = 1 ∨ drafts.length = 2)
    (hfresh : ∀ a ∈ s.advertisements, a.order ≠ s.next_id) :
    orderCreate s f (.list drafts) =
      .ok (createdStore s f drafts) s.next_id ∧
    (get_advertisements (createdStore s f drafts) s.next_id).length =
      drafts.length ∧
    (∀ a ∈ get_advertisements (createdStore s f drafts) s.next_id,
        a.order = s.next_id) ∧
    (createdStore s f drafts).advertisements.length =
      s.advertisements.length + drafts.length := by
  have hemp : (failedIndices (addOrder s f) drafts).isEmpty = true :=
    (failedIndices_isEmpty_iff _ _).mpr hvalid
  have hval : validDrafts (addOrder s f) drafts = drafts :=
    List.filter_eq_self.mpr hvalid
  have hga := get_advertisements_createdStore s f drafts hfresh
  refine ⟨?_, ?_, ?_, ?_⟩
  · rw [orderCreate_eq, hemp]
    rfl
  · rw [hga, hval, savedFrom_length]
  · intro a ha
    rw [hga] at ha
    exact savedFrom_order _ _ _ a ha
  · show (s.advertisements ++ savedFrom (s.next_id + 1) s.next_id
      (validDrafts (addOrder s f) drafts)).length = _
    rw [List.length_append, hval, savedFrom_length]

/-- Claim C6 witness: creating an order with two valid drafts in the
demo store yields a response collection of length 2. -/
theorem c6_witness :
    (∀ d ∈ [demoDraft, demoDraftWithOrder],
        adIsValid (addOrder demoStore demoOrderFields) d = true) ∧
    (∀ a ∈ demoStore.advertisements, a.order ≠ demoStore.next_id) ∧
    (get_advertisements
        (createdStore demoStore demoOrderFields
          [demoDraft, demoDraftWithOrder]) 12).length = 2 := by
  refine ⟨by decide, by decide, ?_⟩
  exact (c6_theorem demoStore demoOrderFields
    [demoDraft, demoDraftWithOrder] (by decide) (by decide)
    (by decide)).2.1

/-- Claim C7: list pagination defaults to page size 50; a supplied
positive page-size parameter up to 100 is honoured exactly; no request
(whatever page size it asks for, e.g. 200) ever yields more than 100
results; and the envelope carries the total count, the next/previous
link flags and the page's result slice (51 items listed with defaults:
count 51, 50 results, a next link). -/
theorem c7_theorem (items : List Nat) (req : Int)
    (hpos : 0 < req) (hcap : req ≤ 100) (h51 : items.length = 51) :
    effectivePageSize none = 50 ∧
    effectivePageSize (some req) = req.toNat ∧
    (∀ (l : List Nat) (pg : Nat) (m : Int),
        ((paginate l pg (some m)).results).length ≤ 100) ∧
    (paginate items 1 none).count = 51 ∧
    ((paginate items 1 none).results).length = 50 ∧
    (paginate items 1 none).hasNext = true ∧
    ((paginate items 1 (some 200)).results).length ≤ 100 := by
  have hbound : ∀ (l : List Nat) (pg : Nat) (m : Int),
      ((paginate l pg (some m)).results).length ≤ 100 := by
    intro l pg m
    have hsz : effectivePageSize (some m) ≤ 100 := by
      show (if m ≤ 0 then page_size else min m.toNat max_page_size) ≤ 100
      by_cases hm : m ≤ 0
      · rw [if_pos hm]
        show 50 ≤ 100
        omega
      · rw [if_neg hm]
        exact Nat.min_le_right _ _
    calc ((paginate l pg (some m)).results).length
        ≤ effectivePageSize (some m) := by
          simp only [paginate]
          exact List.length_take_le _ _
      _ ≤ 100 := hsz
  refine ⟨rfl, ?_, hbound, ?_, ?_, ?_, hbound items 1 200⟩
  · show (if req ≤ 0 then page_size else min req.toNat max_page_size)
      = req.toNat
    rw [if_neg (by omega)]
    exact Nat.min_eq_left (show req.toNat ≤ 100 by omega)
  · simp [paginate, h51]
  · simp [paginate, effectivePageSize, page_size, List.length_take,
      List.length_drop, h51]
  · simp [paginate, effectivePageSize, page_size, h51]

/-- Claim C7 witness: the bounds at page size 30 on 51 items. -/
theorem c7_witness :
    ((0 : Int) < 30) ∧ ((30 : Int) ≤ 100) ∧
    ((List.range 51).length = 51) ∧
    effectivePageSize (some 30) = 30 ∧
    ((paginate (List.range 51) 1 none).results).length = 50 := by
  have h := c7_theorem (List.range 51) 30 (by decide) (by decide)
    (by simp)
  exact ⟨by decide, by decide, by simp, h.2.1, h.2.2.2.2.1⟩

/-- Claim C8: a full replace whose `advertisements` list contains an
invalid draft still saves the scalar field updates and still deletes
every advertisement the order previously owned before the aggregate
error is raised: after the errored call the order row carries the
patched values and the order owns exactly the rows saved from the valid
drafts, with none of its old advertisements restored. -/
theorem c8_theorem (s : Store) (oid : Nat) (o : Order) (p : OrderPatch)
    (drafts : List AdDraft)
    (ho : o ∈ s.orders) (hoid : o.id = oid)
    (hbad : ∃ d ∈ drafts, adIsValid s d = false)
    (hids : ∀ a ∈ s.advertisements, a.id < s.next_id) :
    orderUpdate s oid p (.list drafts) =
      .aggError (replacedStore s oid p drafts) oid
        (failedIndices s drafts) ∧
    applyPatch o p ∈ (replacedStore s oid p drafts).orders ∧
    get_advertisements (replacedStore s oid p drafts) oid =
      savedFrom s.next_id oid (validDrafts s drafts) ∧
    ∀ a ∈ s.advertisements, a.order = oid →
      a ∉ (replacedStore s oid p drafts).advertisements := by
  have hne : (failedIndices s drafts).isEmpty = false := by
    rcases hbad with ⟨d, hd, hv⟩
    cases h : (failedIndices s drafts).isEmpty with
    | false => rfl
    | true =>
      have := (failedIndices_isEmpty_iff _ _).mp h d hd
      rw [hv] at this
      cases this
  refine ⟨?_, ?_, get_advertisements_replacedStore s oid p drafts, ?_⟩
  · rw [orderUpdate_list, hne]
    rfl
  · show applyPatch o p ∈ (savePatched s oid p).orders
    unfold savePatched
    refine List.mem_map.mpr ⟨o, ho, ?_⟩
    simp [hoid]
  · intro a ha hord hmem
    rcases List.mem_append.mp hmem with hold | hnew
    · have := (List.mem_filter.mp hold).2
      simp [hord] at this
    · refine absurd (savedFrom_id_ge _ _ _ a hnew) ?_
      have := hids a ha
      omega

/-- Claim C8 witness: replacing order 10's children with one valid and
one invalid draft errors while committing the replacement. -/
theorem c8_witness :
    (demoOrder ∈ demoStore.orders) ∧ (demoOrder.id = 10) ∧
    (∃ d ∈ [demoDraft, badDraft], adIsValid demoStore d = false) ∧
    (∀ a ∈ demoStore.advertisements, a.id < demoStore.next_id) ∧
    orderUpdate demoStore 10 demoPatch (.list [demoDraft, badDraft]) =
      .aggError (replacedStore demoStore 10 demoPatch
        [demoDraft, badDraft]) 10
        (failedIndices demoStore [demoDraft, badDraft]) := by
  refine ⟨by decide, rfl, ⟨badDraft, by decide, by decide⟩, by decide, ?_⟩
  exact (c8_theorem demoStore 10 demoOrder demoPatch
    [demoDraft, badDraft] (by decide) rfl ⟨badDraft, by decide, by decide⟩
    (by decide)).1

/-- Claim C9: an update payload carrying `advertisements: null` behaves
exactly as if the key were omitted — Python's `dict.get` returns `None`
in both cases — so the scalar fields are applied and the advertisement
table is untouched. -/
theorem c9_theorem (s : Store) (oid : Nat) (p : OrderPatch) :
    orderUpdate s oid p .null = orderUpdate s oid p .absent ∧
    orderUpdate s oid p .null = .ok (savePatched s oid p) oid ∧
    (orderUpdate s oid p .null).store.advertisements =
      s.advertisements := by
  refine ⟨?_, orderUpdate_none s oid p .null rfl, ?_⟩
  · rw [orderUpdate_none s oid p .null rfl,
      orderUpdate_none s oid p .absent rfl]
  · rw [orderUpdate_none s oid p .null rfl]
    rfl

/-- Claim C10: the serializer declares the owning-order field as not
required, so a draft lacking an `order` value is validated exactly on
its remaining fields (the order check imposes nothing); and in both
aggregate write paths — create (`save(order=order)`, serializers.py line
278) and replace (`save(order=instance)`, line 327) — every
advertisement row the call adds carries the parent order's id, supplied
at save time. -/
theorem c10_theorem (s : Store) (d : AdDraft) (f : OrderFields)
    (oid : Nat) (p : OrderPatch) (drafts : List AdDraft)
    (h : d.order = none) :
    (adIsValid s d =
      (adScalarsValid d && hasElementId s d.advertisement_element &&
        hasKindId s d.advertisement_kind)) ∧
    (∀ a ∈ (orderCreate s f (.list drafts)).store.advertisements,
      a ∈ s.advertisements ∨ a.order = s.next_id) ∧
    ∀ a ∈ (orderUpdate s oid p (.list drafts)).store.advertisements,
      a ∈ s.advertisements ∨ a.order = oid := by
  refine ⟨?_, ?_, ?_⟩
  · unfold adIsValid adRelationsValid
    rw [h]
    cases adScalarsValid d <;>
      cases hasElementId s d.advertisement_element <;>
        cases hasKindId s d.advertisement_kind <;> rfl
  · intro a hmem
    have hst : (orderCreate s f (.list drafts)).store
        = createdStore s f drafts := by
      rw [orderCreate_eq]
      split <;> rfl
    rw [hst] at hmem
    rcases List.mem_append.mp hmem with hold | hnew
    · exact Or.inl hold
    · exact Or.inr (savedFrom_order _ _ _ a hnew)
  · intro a hmem
    have hst : (orderUpdate s oid p (.list drafts)).store
        = replacedStore s oid p drafts := by
      rw [orderUpdate_list]
      split <;> rfl
    rw [hst] at hmem
    rcases List.mem_append.mp hmem with hold | hnew
    · exact Or.inl (List.mem_of_mem_filter hold)
    · exact Or.inr (savedFrom_order _ _ _ a hnew)

/-- Claim C10 witness: the demo draft has no `order` value and its
validity is decided by its other fields alone. -/
theorem c10_witness :
    (demoDraft.order = none) ∧
    adIsValid demoStore demoDraft =
      (adScalarsValid demoDraft &&
        hasElementId demoStore demoDraft.advertisement_element &&
        hasKindId demoStore demoDraft.advertisement_kind) :=
  ⟨rfl, (c10_theorem demoStore demoDraft demoOrderFields 10 demoPatch
    [demoDraft] rfl).1⟩

end BraveOrders
